import Mathlib

/-!
Shallow embedding of the Gazell link shim (`rmk-gazell-sys/c/gazell_shim.c`).

The shim keeps a process-wide `gz_state` record and drives the underlying
Nordic Gazell engine through a fixed set of primitive calls.  We embed:

* `LinkState` — the fields of the C `gz_state` struct;
* `EngineState` — the externally visible state of the radio engine that the
  shim's primitive calls read or write (enabled flag, programmed parameters,
  outbound/inbound packet queues for the single pipe in use);
* one Lean function per C API function, taking the pre-states and returning
  the error code plus the post-states.  Fallible engine primitives
  (`nrf_gzll_init`, `nrf_gzll_enable`, `nrf_gzll_add_packet_to_tx_fifo`)
  are modelled by oracle booleans passed as extra arguments, since the
  engine itself is out of scope.  A C null pointer is modelled by `none`
  (for the send data pointer) or by a boolean null flag (for the recv
  output pointers).  The asynchronous transmit-completion interrupts are
  modelled by a schedule `Nat → Option TxEvent` giving the event (if any)
  delivered at the start of each iteration of `gz_send`'s polling loop.
-/

/-- Error codes of `gz_error_t` in `gazell_shim.h`. -/
inductive GzError where
  | GZ_OK
  | GZ_ERR_SEND_FAILED
  | GZ_ERR_RECEIVE_FAILED
  | GZ_ERR_FRAME_TOO_LARGE
  | GZ_ERR_NOT_INITIALIZED
  | GZ_ERR_BUSY
  | GZ_ERR_INVALID_CONFIG
  | GZ_ERR_HARDWARE
deriving Repr, DecidableEq

/-- The integer value each `gz_error_t` enumerator has in the C header. -/
def errCode : GzError → Int
  | .GZ_OK => 0
  | .GZ_ERR_SEND_FAILED => -1
  | .GZ_ERR_RECEIVE_FAILED => -2
  | .GZ_ERR_FRAME_TOO_LARGE => -3
  | .GZ_ERR_NOT_INITIALIZED => -4
  | .GZ_ERR_BUSY => -5
  | .GZ_ERR_INVALID_CONFIG => -6
  | .GZ_ERR_HARDWARE => -7

/-- The integer value a C `bool` has when used where an integer is expected. -/
def boolCode : Bool → Int
  | false => 0
  | true => 1

/-- `MAX_PAYLOAD_LENGTH` in `gazell_shim.c`. -/
def MAX_PAYLOAD_LENGTH : Nat := 32

/-- `GZ_MODE_DEVICE` enumerator value (the C enum is an integer type, so a
mode variable can also hold unrecognized values; we model it as `Nat`). -/
def GZ_MODE_DEVICE : Nat := 0

/-- `GZ_MODE_HOST` enumerator value. -/
def GZ_MODE_HOST : Nat := 1

/-- `NRF_GZLL_MODE_DEVICE` engine role constant (SDK value, modelled). -/
def NRF_GZLL_MODE_DEVICE : Nat := 0

/-- `NRF_GZLL_MODE_HOST` engine role constant (SDK value, modelled). -/
def NRF_GZLL_MODE_HOST : Nat := 1

/-- `NRF_GZLL_DATARATE_250KBIT` engine data-rate constant (modelled). -/
def NRF_GZLL_DATARATE_250KBIT : Nat := 0

/-- `NRF_GZLL_DATARATE_1MBIT` engine data-rate constant (modelled). -/
def NRF_GZLL_DATARATE_1MBIT : Nat := 1

/-- `NRF_GZLL_DATARATE_2MBIT` engine data-rate constant (modelled). -/
def NRF_GZLL_DATARATE_2MBIT : Nat := 2

/-- `NRF_GZLL_CONST_FIFO_LENGTH`, the engine's fixed per-pipe FIFO capacity
(SDK constant, value 3 in the Nordic SDK). -/
def NRF_GZLL_CONST_FIFO_LENGTH : Nat := 3

/-- The iteration budget of `gz_send`'s polling loop: the C code initializes
`volatile uint32_t timeout = 100000` and runs the body while `timeout-- > 0`,
i.e. exactly 100000 iterations. -/
def sendBudget : Nat := 100000

/-- The fields of the C `gz_state` struct.  `mode` is kept as a `Nat` since
the C enum field can hold any integer value.  `rx_buffer` holds the bytes of
the fixed 32-byte buffer. -/
structure LinkState where
  initialized : Bool
  mode : Nat
  rx_buffer : List Nat
  rx_length : Nat
  rx_ready : Bool
  tx_success : Bool
  tx_failed : Bool
deriving Repr, DecidableEq

/-- The `gz_state = {0}` zero initializer of the C file. -/
def initialLinkState : LinkState :=
  { initialized := false
    mode := 0
    rx_buffer := List.replicate MAX_PAYLOAD_LENGTH 0
    rx_length := 0
    rx_ready := false
    tx_success := false
    tx_failed := false }

/-- The externally visible state of the radio engine, as far as the shim's
primitive calls touch it: the enabled flag, the parameters the shim programs,
and the outbound/inbound packet queues of pipe 0 (the only pipe in use). -/
structure EngineState where
  enabled : Bool
  engineMode : Nat
  baseAddress0 : Nat
  prefByte0 : Nat
  txPower : Int
  datarate : Nat
  channelTable : List Nat
  channelTableSize : Nat
  maxTxAttempts : Nat
  timeslotPeriod : Nat
  txFifo : List (List Nat)
  rxFifo : List (List Nat)
deriving Repr, DecidableEq

/-- The fields of the C `gz_config_t` struct (`gazell_shim.h`).  The four
`base_address` bytes are the fields `base0..base3`; `addrPref` is the
`address_prefix` byte. -/
structure GzConfig where
  channel : Nat
  data_rate : Nat
  tx_power : Int
  max_retries : Nat
  ack_timeout_us : Nat
  base0 : Nat
  base1 : Nat
  base2 : Nat
  base3 : Nat
  addrPref : Nat
deriving Repr, DecidableEq

/-- A transmit-completion event delivered by the engine's interrupt context
during `gz_send`'s polling loop. -/
inductive TxEvent where
  | success
  | failed
deriving Repr, DecidableEq

/-- The `nrf_gzll_device_tx_success` callback: latches `tx_success`. -/
def nrf_gzll_device_tx_success_cb (s : LinkState) : LinkState :=
  { s with tx_success := true }

/-- The `nrf_gzll_device_tx_failed` callback: latches `tx_failed`. -/
def nrf_gzll_device_tx_failed_cb (s : LinkState) : LinkState :=
  { s with tx_failed := true }

/-- Applies the interrupt event (if any) delivered at one poll iteration. -/
def applyEvent (ev : Option TxEvent) (s : LinkState) : LinkState :=
  match ev with
  | none => s
  | some .success => nrf_gzll_device_tx_success_cb s
  | some .failed => nrf_gzll_device_tx_failed_cb s

/-- The polling loop of `gz_send` (`while (timeout-- > 0) { ... }`):
argument `i` is the iteration index (used to look up the interrupt
schedule), `fuel` the remaining iterations.  Each iteration first applies
the scheduled interrupt, then checks `tx_success`, then `tx_failed`, exactly
in the order of the C loop body; exhausting the budget returns
`GZ_ERR_SEND_FAILED`. -/
def sendLoop (sched : Nat → Option TxEvent) : Nat → Nat → LinkState → GzError × LinkState
  | _, 0, s => (.GZ_ERR_SEND_FAILED, s)
  | i, fuel + 1, s =>
    let s1 := applyEvent (sched i) s
    if s1.tx_success = true then (.GZ_OK, s1)
    else if s1.tx_failed = true then (.GZ_ERR_SEND_FAILED, s1)
    else sendLoop sched (i + 1) fuel s1

/-- `gz_init`.  `config = none` models a null config pointer; `initOk` is the
oracle for the fallible `nrf_gzll_init` engine call.  Returns the error code
and the post-states of the link and the engine. -/
def gz_init (config : Option GzConfig) (initOk : Bool) (s : LinkState)
    (e : EngineState) : GzError × LinkState × EngineState :=
  match config with
  | none => (.GZ_ERR_INVALID_CONFIG, s, e)
  | some c =>
    if 100 < c.channel then (.GZ_ERR_INVALID_CONFIG, s, e)
    else if 2 < c.data_rate then (.GZ_ERR_INVALID_CONFIG, s, e)
    else if 15 < c.max_retries then (.GZ_ERR_INVALID_CONFIG, s, e)
    else if c.ack_timeout_us < 250 ∨ 4000 < c.ack_timeout_us then
      (.GZ_ERR_INVALID_CONFIG, s, e)
    else
      -- Clear state
      let s1 : LinkState :=
        { s with initialized := false, rx_ready := false,
                 tx_success := false, tx_failed := false }
      -- nrf_gzll_init(NRF_GZLL_MODE_DEVICE)
      if initOk = false then (.GZ_ERR_HARDWARE, s1, e)
      else
        let e1 : EngineState := { e with engineMode := NRF_GZLL_MODE_DEVICE }
        -- base address packed little-endian into a 32-bit engine address
        let base : Nat :=
          (c.base3 * 2 ^ 24 + c.base2 * 2 ^ 16 + c.base1 * 2 ^ 8 + c.base0) % 2 ^ 32
        let e2 : EngineState := { e1 with baseAddress0 := base }
        let e3 : EngineState := { e2 with prefByte0 := c.addrPref }
        let e4 : EngineState := { e3 with txPower := c.tx_power }
        -- switch (config->data_rate), with its (unreachable) default branch
        let rate? : Option Nat :=
          if c.data_rate = 0 then some NRF_GZLL_DATARATE_250KBIT
          else if c.data_rate = 1 then some NRF_GZLL_DATARATE_1MBIT
          else if c.data_rate = 2 then some NRF_GZLL_DATARATE_2MBIT
          else none
        match rate? with
        | none => (.GZ_ERR_INVALID_CONFIG, s1, e4)
        | some rate =>
          let e5 : EngineState := { e4 with datarate := rate }
          let e6 : EngineState :=
            { e5 with channelTable := [c.channel], channelTableSize := 1 }
          let e7 : EngineState := { e6 with maxTxAttempts := c.max_retries }
          let timeslot0 := c.ack_timeout_us / 500
          let timeslot := if timeslot0 < 1 then 1 else timeslot0
          let e8 : EngineState := { e7 with timeslotPeriod := timeslot }
          (.GZ_OK, { s1 with initialized := true }, e8)

/-- `gz_set_mode`.  `initOk` and `enableOk` are the oracles for the fallible
`nrf_gzll_init` and `nrf_gzll_enable` engine calls.  Note the C code disables
the engine (and spins until disabled) before checking the mode argument. -/
def gz_set_mode (mode : Nat) (initOk enableOk : Bool) (s : LinkState)
    (e : EngineState) : GzError × LinkState × EngineState :=
  if s.initialized = false then (.GZ_ERR_NOT_INITIALIZED, s, e)
  else
    -- nrf_gzll_disable(); while (nrf_gzll_is_enabled()) {}
    let e1 : EngineState := { e with enabled := false }
    let nrfMode? : Option Nat :=
      if mode = GZ_MODE_DEVICE then some NRF_GZLL_MODE_DEVICE
      else if mode = GZ_MODE_HOST then some NRF_GZLL_MODE_HOST
      else none
    match nrfMode? with
    | none => (.GZ_ERR_INVALID_CONFIG, s, e1)
    | some nm =>
      if initOk = false then (.GZ_ERR_HARDWARE, s, e1)
      else
        let e2 : EngineState := { e1 with engineMode := nm }
        if enableOk = false then (.GZ_ERR_HARDWARE, s, e2)
        else (.GZ_OK, { s with mode := mode }, { e2 with enabled := true })

/-- `gz_send`.  `data = none` models a null data pointer; `addOk` is the
oracle for `nrf_gzll_add_packet_to_tx_fifo` (false means the outbound queue
rejected the packet); `sched` is the interrupt schedule for the polling
loop. -/
def gz_send (data : Option (List Nat)) (len : Nat) (addOk : Bool)
    (sched : Nat → Option TxEvent) (s : LinkState) (e : EngineState) :
    GzError × LinkState × EngineState :=
  if s.initialized = false then (.GZ_ERR_NOT_INITIALIZED, s, e)
  else
    match data with
    | none => (.GZ_ERR_INVALID_CONFIG, s, e)
    | some d =>
      if len = 0 ∨ MAX_PAYLOAD_LENGTH < len then (.GZ_ERR_FRAME_TOO_LARGE, s, e)
      else if ¬ s.mode = GZ_MODE_DEVICE then (.GZ_ERR_INVALID_CONFIG, s, e)
      else
        -- Clear TX flags
        let s1 : LinkState := { s with tx_success := false, tx_failed := false }
        if addOk = false then (.GZ_ERR_BUSY, s1, e)
        else
          let e1 : EngineState := { e with txFifo := e.txFifo ++ [d.take len] }
          let r := sendLoop sched 0 sendBudget s1
          (r.1, r.2, e1)

/-- `gz_recv`.  `bufNull`/`lenNull` model null output pointers.  The third
component of the result describes what was written through the output
pointers: `none` when nothing was written (error paths), `some (bytes, n)`
when the copied bytes are `bytes` and `*out_len` was set to `n`. -/
def gz_recv (bufNull lenNull : Bool) (max_len : Nat) (s : LinkState) :
    GzError × LinkState × Option (List Nat × Nat) :=
  if s.initialized = false then (.GZ_ERR_NOT_INITIALIZED, s, none)
  else if bufNull = true ∨ lenNull = true then (.GZ_ERR_INVALID_CONFIG, s, none)
  else if ¬ s.mode = GZ_MODE_HOST then (.GZ_ERR_INVALID_CONFIG, s, none)
  else if s.rx_ready = false then (.GZ_OK, s, some ([], 0))
  else if max_len < s.rx_length then (.GZ_ERR_FRAME_TOO_LARGE, s, none)
  else
    (.GZ_OK, { s with rx_ready := false },
      some (s.rx_buffer.take s.rx_length, s.rx_length))

/-- `gz_is_ready`: false when not initialized, else whether the pipe-0
outbound queue occupancy is below the engine's fixed FIFO capacity. -/
def gz_is_ready (s : LinkState) (e : EngineState) : Bool :=
  if s.initialized = false then false
  else decide (e.txFifo.length < NRF_GZLL_CONST_FIFO_LENGTH)

/-- `gz_flush`: flushes the pipe-0 outbound queue, flushes the inbound queue
only in Host mode, clears the three state flags. -/
def gz_flush (s : LinkState) (e : EngineState) : GzError × LinkState × EngineState :=
  if s.initialized = false then (.GZ_ERR_NOT_INITIALIZED, s, e)
  else
    let e1 : EngineState := { e with txFifo := [] }
    let e2 : EngineState := if s.mode = GZ_MODE_HOST then { e1 with rxFifo := [] } else e1
    (.GZ_OK,
      { s with rx_ready := false, tx_success := false, tx_failed := false }, e2)

/-- `gz_deinit`: no-op when not initialized; otherwise disables the engine
(spinning until disabled) and clears `initialized` and the flags. -/
def gz_deinit (s : LinkState) (e : EngineState) : LinkState × EngineState :=
  if s.initialized = false then (s, e)
  else
    ({ s with initialized := false, rx_ready := false,
              tx_success := false, tx_failed := false },
     { e with enabled := false })

/-- A config violates one of `gz_init`'s validation bounds: null pointer,
channel above 100, data-rate above 2 (i.e. not in {0,1,2} for an unsigned
byte), max-retries above 15, or ack-timeout outside [250, 4000]. -/
def violatesBound : Option GzConfig → Prop
  | none => True
  | some c =>
    100 < c.channel ∨ 2 < c.data_rate ∨ 15 < c.max_retries ∨
      c.ack_timeout_us < 250 ∨ 4000 < c.ack_timeout_us

/-- A sample initialized link state (role Device). -/
def sDevice : LinkState :=
  { initialLinkState with initialized := true, mode := GZ_MODE_DEVICE }

/-- A sample initialized link state in Host role holding a 4-byte packet. -/
def sHost4 : LinkState :=
  { initialized := true
    mode := GZ_MODE_HOST
    rx_buffer := [10, 20, 30, 40] ++ List.replicate 28 0
    rx_length := 4
    rx_ready := true
    tx_success := false
    tx_failed := false }

/-- A sample engine state with the radio enabled. -/
def eEnabled : EngineState :=
  { enabled := true
    engineMode := 0
    baseAddress0 := 0
    prefByte0 := 0
    txPower := 0
    datarate := 0
    channelTable := []
    channelTableSize := 0
    maxTxAttempts := 0
    timeslotPeriod := 0
    txFifo := []
    rxFifo := [] }

/-- A sample valid configuration. -/
def cfgValid : GzConfig :=
  { channel := 42
    data_rate := 1
    tx_power := 0
    max_retries := 5
    ack_timeout_us := 600
    base0 := 1
    base1 := 2
    base2 := 3
    base3 := 4
    addrPref := 7 }

/-- An interrupt schedule delivering no event at all. -/
def schedNone : Nat → Option TxEvent := fun _ => none

/-- An interrupt schedule delivering a tx-success event at iteration 5. -/
def schedSucc5 : Nat → Option TxEvent :=
  fun i => if i = 5 then some .success else none

/-- An interrupt schedule delivering a tx-failed event at iteration 5. -/
def schedFail5 : Nat → Option TxEvent :=
  fun i => if i = 5 then some .failed else none

/-- A sample configuration violating the channel bound. -/
def cfgBadChannel : GzConfig := { cfgValid with channel := 200 }

/-- A sample engine state with non-empty outbound and inbound queues. -/
def eBusy : EngineState := { eEnabled with txFifo := [[1], [2]], rxFifo := [[3]] }

/-- If no interrupt event is delivered during the remaining iterations and
both flags are clear, the polling loop exhausts its fuel and reports
`GZ_ERR_SEND_FAILED` with the state unchanged. -/
theorem sendLoop_no_event (sched : Nat → Option TxEvent) (fuel : Nat) :
    ∀ (i : Nat) (s : LinkState),
      (∀ j, i ≤ j → j < i + fuel → sched j = none) →
      s.tx_success = false → s.tx_failed = false →
      sendLoop sched i fuel s = (.GZ_ERR_SEND_FAILED, s) := by
  induction fuel with
  | zero =>
    intro i s _ _ _
    rfl
  | succ fuel ih =>
    intro i s hnone hs hf
    have h0 : sched i = none := hnone i le_rfl (by omega)
    simp [sendLoop, h0, applyEvent, hs, hf]
    exact ih (i + 1) s (fun j hj1 hj2 => hnone j (by omega) (by omega)) hs hf

/-- If the first interrupt event delivered is a tx-success at iteration `k`
within the remaining fuel, the polling loop returns `GZ_OK`. -/
theorem sendLoop_first_success (sched : Nat → Option TxEvent) (fuel : Nat) :
    ∀ (i k : Nat) (s : LinkState),
      i ≤ k → k < i + fuel → sched k = some .success →
      (∀ j, i ≤ j → j < k → sched j = none) →
      s.tx_success = false → s.tx_failed = false →
      (sendLoop sched i fuel s).1 = .GZ_OK := by
  induction fuel with
  | zero =>
    intro i k s h1 h2 _ _ _ _
    omega
  | succ fuel ih =>
    intro i k s h1 h2 hk hnone hs hf
    rcases Nat.eq_or_lt_of_le h1 with heq | hlt
    · subst heq
      simp [sendLoop, hk, applyEvent, nrf_gzll_device_tx_success_cb]
    · have h0 : sched i = none := hnone i le_rfl hlt
      simp [sendLoop, h0, applyEvent, hs, hf]
      exact ih (i + 1) k s hlt (by omega) hk
        (fun j hj1 hj2 => hnone j (by omega) hj2) hs hf

/-- If the first interrupt event delivered is a tx-failed at iteration `k`
within the remaining fuel, the polling loop returns `GZ_ERR_SEND_FAILED`. -/
theorem sendLoop_first_failed (sched : Nat → Option TxEvent) (fuel : Nat) :
    ∀ (i k : Nat) (s : LinkState),
      i ≤ k → k < i + fuel → sched k = some .failed →
      (∀ j, i ≤ j → j < k → sched j = none) →
      s.tx_success = false → s.tx_failed = false →
      (sendLoop sched i fuel s).1 = .GZ_ERR_SEND_FAILED := by
  induction fuel with
  | zero =>
    intro i k s h1 h2 _ _ _ _
    omega
  | succ fuel ih =>
    intro i k s h1 h2 hk hnone hs hf
    rcases Nat.eq_or_lt_of_le h1 with heq | hlt
    · subst heq
      simp [sendLoop, hk, applyEvent, nrf_gzll_device_tx_failed_cb, hs]
    · have h0 : sched i = none := hnone i le_rfl hlt
      simp [sendLoop, h0, applyEvent, hs, hf]
      exact ih (i + 1) k s hlt (by omega) hk
        (fun j hj1 hj2 => hnone j (by omega) hj2) hs hf

/-- C2: on an initialized Device-role link with non-null data of length in
[1,32], `gz_send` first clears `tx_success`/`tx_failed`; if the outbound
queue rejects the packet it returns `GZ_ERR_BUSY` without blocking (the
returned state shows both flags cleared, whatever they were before);
otherwise it polls within the fixed iteration budget, returning `GZ_OK` as
soon as a tx-success is observed, `GZ_ERR_SEND_FAILED` as soon as a
tx-failed is observed, and `GZ_ERR_SEND_FAILED` when the budget is
exhausted with neither flag set. -/
theorem gz_send_device_polling (s : LinkState) (e : EngineState)
    (d : List Nat) (len : Nat) (sched : Nat → Option TxEvent)
    (hinit : s.initialized = true) (hmode : s.mode = GZ_MODE_DEVICE)
    (hlen1 : 1 ≤ len) (hlen2 : len ≤ 32) :
    gz_send (some d) len false sched s e =
      (.GZ_ERR_BUSY, { s with tx_success := false, tx_failed := false }, e) ∧
    ((∀ i, i < sendBudget → sched i = none) →
      (gz_send (some d) len true sched s e).1 = .GZ_ERR_SEND_FAILED) ∧
    (∀ k, k < sendBudget → sched k = some .success →
      (∀ i, i < k → sched i = none) →
      (gz_send (some d) len true sched s e).1 = .GZ_OK) ∧
    (∀ k, k < sendBudget → sched k = some .failed →
      (∀ i, i < k → sched i = none) →
      (gz_send (some d) len true sched s e).1 = .GZ_ERR_SEND_FAILED) := by
  have hnot : ¬ (len = 0 ∨ MAX_PAYLOAD_LENGTH < len) := by
    simp only [MAX_PAYLOAD_LENGTH]
    omega
  refine ⟨?_, ?_, ?_, ?_⟩
  · simp [gz_send, hinit, hmode, hnot]
  · intro hne
    have hrun := sendLoop_no_event sched sendBudget 0
      { s with tx_success := false, tx_failed := false }
      (fun j _ hj2 => hne j (by omega)) rfl rfl
    simp only [hinit, hmode] at hrun
    simp [gz_send, hinit, hmode, hnot, hrun]
  · intro k hk hks hnone
    have hrun := sendLoop_first_success sched sendBudget 0 k
      { s with tx_success := false, tx_failed := false }
      (Nat.zero_le k) (by omega) hks (fun j _ hj2 => hnone j hj2) rfl rfl
    simp only [hinit, hmode] at hrun
    simp [gz_send, hinit, hmode, hnot, hrun]
  · intro k hk hks hnone
    have hrun := sendLoop_first_failed sched sendBudget 0 k
      { s with tx_success := false, tx_failed := false }
      (Nat.zero_le k) (by omega) hks (fun j _ hj2 => hnone j hj2) rfl rfl
    simp only [hinit, hmode] at hrun
    simp [gz_send, hinit, hmode, hnot, hrun]

/-- C6: `gz_send` checks its preconditions in order, each with its distinct
failure: not initialized gives `GZ_ERR_NOT_INITIALIZED`; else a null data
pointer gives `GZ_ERR_INVALID_CONFIG`; else length 0 or above 32 gives
`GZ_ERR_FRAME_TOO_LARGE`; else a role other than Device gives
`GZ_ERR_INVALID_CONFIG`.  In each case the link and engine states are
unchanged. -/
theorem gz_send_precondition_order (s : LinkState) (e : EngineState)
    (data : Option (List Nat)) (len : Nat) (addOk : Bool)
    (sched : Nat → Option TxEvent) :
    (s.initialized = false →
      gz_send data len addOk sched s e = (.GZ_ERR_NOT_INITIALIZED, s, e)) ∧
    (s.initialized = true → data = none →
      gz_send data len addOk sched s e = (.GZ_ERR_INVALID_CONFIG, s, e)) ∧
    (∀ d, s.initialized = true → data = some d → (len = 0 ∨ 32 < len) →
      gz_send data len addOk sched s e = (.GZ_ERR_FRAME_TOO_LARGE, s, e)) ∧
    (∀ d, s.initialized = true → data = some d → 1 ≤ len → len ≤ 32 →
      ¬ s.mode = GZ_MODE_DEVICE →
      gz_send data len addOk sched s e = (.GZ_ERR_INVALID_CONFIG, s, e)) := by
  refine ⟨?_, ?_, ?_, ?_⟩
  · intro h
    simp [gz_send, h]
  · intro h hd
    subst hd
    simp [gz_send, h]
  · intro d h hd hl
    subst hd
    have hyes : len = 0 ∨ MAX_PAYLOAD_LENGTH < len := by
      simp only [MAX_PAYLOAD_LENGTH]
      omega
    simp [gz_send, h, hyes]
  · intro d h hd h1 h2 hm
    subst hd
    have hno : ¬ (len = 0 ∨ MAX_PAYLOAD_LENGTH < len) := by
      simp only [MAX_PAYLOAD_LENGTH]
      omega
    simp [gz_send, h, hno, hm]

/-- C4: a config violating any of the validation bounds makes `gz_init`
return `GZ_ERR_INVALID_CONFIG` with the link state and the engine state
completely untouched. -/
theorem gz_init_invalid_config (cfg : Option GzConfig) (initOk : Bool)
    (s : LinkState) (e : EngineState) (hv : violatesBound cfg) :
    gz_init cfg initOk s e = (.GZ_ERR_INVALID_CONFIG, s, e) := by
  match cfg with
  | none => rfl
  | some c =>
    simp only [violatesBound] at hv
    by_cases h1 : 100 < c.channel
    · simp [gz_init, h1]
    · by_cases h2 : 2 < c.data_rate
      · simp [gz_init, h1, h2]
      · by_cases h3 : 15 < c.max_retries
        · simp [gz_init, h1, h2, h3]
        · have h4 : c.ack_timeout_us < 250 ∨ 4000 < c.ack_timeout_us := by omega
          simp [gz_init, h1, h2, h3, h4]

/-- C7: a valid config whose engine bring-up call fails makes `gz_init`
return `GZ_ERR_HARDWARE` with the link state already reset: `initialized`,
`rx_ready`, `tx_success` and `tx_failed` are all false on return, whatever
they were before the call. -/
theorem gz_init_hardware_resets (c : GzConfig) (s : LinkState)
    (e : EngineState) (hch : c.channel ≤ 100) (hdr : c.data_rate ≤ 2)
    (hmr : c.max_retries ≤ 15) (ha1 : 250 ≤ c.ack_timeout_us)
    (ha2 : c.ack_timeout_us ≤ 4000) :
    gz_init (some c) false s e =
      (.GZ_ERR_HARDWARE,
        { s with initialized := false, rx_ready := false,
                 tx_success := false, tx_failed := false }, e) ∧
    (gz_init (some c) false s e).2.1.initialized = false ∧
    (gz_init (some c) false s e).2.1.rx_ready = false ∧
    (gz_init (some c) false s e).2.1.tx_success = false ∧
    (gz_init (some c) false s e).2.1.tx_failed = false := by
  have h1 : ¬ 100 < c.channel := by omega
  have h2 : ¬ 2 < c.data_rate := by omega
  have h3 : ¬ 15 < c.max_retries := by omega
  have h4 : ¬ (c.ack_timeout_us < 250 ∨ 4000 < c.ack_timeout_us) := by omega
  have heq : gz_init (some c) false s e =
      (.GZ_ERR_HARDWARE,
        { s with initialized := false, rx_ready := false,
                 tx_success := false, tx_failed := false }, e) := by
    simp [gz_init, h1, h2, h3, h4]
  refine ⟨heq, ?_, ?_, ?_, ?_⟩ <;> rw [heq]

/-- C10: for every valid config, the timeslot-period value `gz_init`
programs into the engine is the truncating division `ack_timeout_us / 500`
floored to a minimum of 1; in particular timeouts 250..499 and 500..999
give 1, 1000..1499 give 2, and 4000 gives 8. -/
theorem gz_init_timeslot (c : GzConfig) (s : LinkState) (e : EngineState)
    (hch : c.channel ≤ 100) (hdr : c.data_rate ≤ 2)
    (hmr : c.max_retries ≤ 15) (ha1 : 250 ≤ c.ack_timeout_us)
    (ha2 : c.ack_timeout_us ≤ 4000) :
    (gz_init (some c) true s e).1 = .GZ_OK ∧
    (gz_init (some c) true s e).2.2.timeslotPeriod =
      max (c.ack_timeout_us / 500) 1 ∧
    (c.ack_timeout_us ≤ 499 →
      (gz_init (some c) true s e).2.2.timeslotPeriod = 1) ∧
    (500 ≤ c.ack_timeout_us → c.ack_timeout_us ≤ 999 →
      (gz_init (some c) true s e).2.2.timeslotPeriod = 1) ∧
    (1000 ≤ c.ack_timeout_us → c.ack_timeout_us ≤ 1499 →
      (gz_init (some c) true s e).2.2.timeslotPeriod = 2) ∧
    (c.ack_timeout_us = 4000 →
      (gz_init (some c) true s e).2.2.timeslotPeriod = 8) := by
  have h1 : ¬ 100 < c.channel := by omega
  have h2 : ¬ 2 < c.data_rate := by omega
  have h3 : ¬ 15 < c.max_retries := by omega
  have h4 : ¬ (c.ack_timeout_us < 250 ∨ 4000 < c.ack_timeout_us) := by omega
  have hdr3 : c.data_rate = 0 ∨ c.data_rate = 1 ∨ c.data_rate = 2 := by omega
  have key : (gz_init (some c) true s e).1 = .GZ_OK ∧
      (gz_init (some c) true s e).2.2.timeslotPeriod =
        (if c.ack_timeout_us / 500 < 1 then 1 else c.ack_timeout_us / 500) := by
    rcases hdr3 with h | h | h <;> simp [gz_init, h1, h2, h3, h4, h]
  obtain ⟨hok, hts⟩ := key
  refine ⟨hok, ?_, ?_, ?_, ?_, ?_⟩
  · rw [hts]
    split <;> omega
  · intro hb
    rw [hts]
    split <;> omega
  · intro hb1 hb2
    rw [hts]
    split <;> omega
  · intro hb1 hb2
    rw [hts]
    split <;> omega
  · intro hb
    rw [hts]
    split <;> omega

/-- C8 (amended): on an uninitialized link, `gz_set_mode`, `gz_send`,
`gz_recv` and `gz_flush` all return `GZ_ERR_NOT_INITIALIZED` without side
effects, `gz_is_ready` returns false (it has no error channel), and
`gz_deinit` is a no-op; and `gz_deinit` always leaves `initialized` false,
so the same holds after any `gz_deinit`. -/
theorem ops_require_initialized (s : LinkState) (e : EngineState)
    (mode : Nat) (initOk enableOk addOk : Bool) (data : Option (List Nat))
    (len : Nat) (sched : Nat → Option TxEvent) (bufNull lenNull : Bool)
    (max_len : Nat) :
    (s.initialized = false →
      gz_set_mode mode initOk enableOk s e = (.GZ_ERR_NOT_INITIALIZED, s, e) ∧
      gz_send data len addOk sched s e = (.GZ_ERR_NOT_INITIALIZED, s, e) ∧
      gz_recv bufNull lenNull max_len s = (.GZ_ERR_NOT_INITIALIZED, s, none) ∧
      gz_flush s e = (.GZ_ERR_NOT_INITIALIZED, s, e) ∧
      gz_is_ready s e = false ∧
      gz_deinit s e = (s, e)) ∧
    (gz_deinit s e).1.initialized = false := by
  constructor
  · intro h
    refine ⟨?_, ?_, ?_, ?_, ?_, ?_⟩ <;>
      simp [gz_set_mode, gz_send, gz_recv, gz_flush, gz_is_ready, gz_deinit, h]
  · by_cases h : s.initialized = false <;> simp [gz_deinit, h]

/-- C8 counterexample: the claim as stated says `gz_is_ready` (like every
operation except init) returns `GZ_ERR_NOT_INITIALIZED` before init; but
`gz_is_ready` returns the boolean false, whose C integer value 0 is not the
`GZ_ERR_NOT_INITIALIZED` code -4. -/
theorem is_ready_uninit_not_error_code :
    gz_is_ready initialLinkState eEnabled = false ∧
    boolCode (gz_is_ready initialLinkState eEnabled) ≠
      errCode .GZ_ERR_NOT_INITIALIZED := by
  decide

/-- C9: on an initialized link, `gz_flush` returns `GZ_OK`, empties the
engine outbound queue, empties the inbound queue exactly when the role is
Host, clears `rx_ready`, `tx_success` and `tx_failed`, and leaves
`initialized` and `mode` unchanged. -/
theorem gz_flush_behavior (s : LinkState) (e : EngineState)
    (hinit : s.initialized = true) :
    (gz_flush s e).1 = .GZ_OK ∧
    (gz_flush s e).2.2.txFifo = [] ∧
    (s.mode = GZ_MODE_HOST → (gz_flush s e).2.2.rxFifo = []) ∧
    (¬ s.mode = GZ_MODE_HOST → (gz_flush s e).2.2.rxFifo = e.rxFifo) ∧
    (gz_flush s e).2.1.rx_ready = false ∧
    (gz_flush s e).2.1.tx_success = false ∧
    (gz_flush s e).2.1.tx_failed = false ∧
    (gz_flush s e).2.1.initialized = s.initialized ∧
    (gz_flush s e).2.1.mode = s.mode := by
  by_cases hm : s.mode = GZ_MODE_HOST <;> simp [gz_flush, hinit, hm]

/-- C3: on an initialized Host-role link with a buffered packet longer than
the caller's maximum, `gz_recv` returns `GZ_ERR_FRAME_TOO_LARGE`, writes
nothing, and leaves the whole link state (in particular `rx_ready`,
`rx_buffer`, `rx_length`) unchanged, so a subsequent `gz_recv` with a
sufficient maximum still returns the buffered packet. -/
theorem gz_recv_too_large_preserves (s : LinkState) (max_len : Nat)
    (hinit : s.initialized = true) (hmode : s.mode = GZ_MODE_HOST)
    (hready : s.rx_ready = true) (hlen : max_len < s.rx_length) :
    gz_recv false false max_len s = (.GZ_ERR_FRAME_TOO_LARGE, s, none) ∧
    (∀ max2, s.rx_length ≤ max2 →
      gz_recv false false max2 (gz_recv false false max_len s).2.1 =
        (.GZ_OK, { s with rx_ready := false },
          some (s.rx_buffer.take s.rx_length, s.rx_length))) := by
  have heq : gz_recv false false max_len s =
      (.GZ_ERR_FRAME_TOO_LARGE, s, none) := by
    simp [gz_recv, hinit, hmode, hready, hlen]
  refine ⟨heq, ?_⟩
  intro max2 h2
  rw [heq]
  have hno : ¬ max2 < s.rx_length := by omega
  simp [gz_recv, hinit, hmode, hready, hno]

/-- C5: on an initialized Host-role link with non-null output pointers,
`gz_recv` returns `GZ_OK` with length 0 when no packet is buffered; when a
packet of length `rx_length` at most `max_len` is buffered, it copies
exactly those `rx_length` bytes, reports that length, clears `rx_ready`,
and returns `GZ_OK`, so an immediately following `gz_recv` returns `GZ_OK`
with length 0. -/
theorem gz_recv_success_behavior (s : LinkState) (max_len : Nat)
    (hinit : s.initialized = true) (hmode : s.mode = GZ_MODE_HOST) :
    (s.rx_ready = false →
      gz_recv false false max_len s = (.GZ_OK, s, some ([], 0))) ∧
    (s.rx_ready = true → s.rx_length ≤ max_len →
      gz_recv false false max_len s =
        (.GZ_OK, { s with rx_ready := false },
          some (s.rx_buffer.take s.rx_length, s.rx_length)) ∧
      (∀ max2, gz_recv false false max2 (gz_recv false false max_len s).2.1 =
        (.GZ_OK, { s with rx_ready := false }, some ([], 0)))) := by
  constructor
  · intro h
    simp [gz_recv, hinit, hmode, h]
  · intro hr hl
    have hno : ¬ max_len < s.rx_length := by omega
    have heq : gz_recv false false max_len s =
        (.GZ_OK, { s with rx_ready := false },
          some (s.rx_buffer.take s.rx_length, s.rx_length)) := by
      simp [gz_recv, hinit, hmode, hr, hno]
    refine ⟨heq, ?_⟩
    intro max2
    rw [heq]
    simp [gz_recv, hinit, hmode]

/-- C1 (amended): on an initialized link, `gz_set_mode` with an unrecognized
role value returns `GZ_ERR_INVALID_CONFIG` leaving the link state (in
particular the stored role) unchanged, but only after disabling the engine:
on return the engine is disabled, not in its prior enabled state. -/
theorem gz_set_mode_unknown_role (mode : Nat) (initOk enableOk : Bool)
    (s : LinkState) (e : EngineState) (hinit : s.initialized = true)
    (h0 : ¬ mode = GZ_MODE_DEVICE) (h1 : ¬ mode = GZ_MODE_HOST) :
    gz_set_mode mode initOk enableOk s e =
      (.GZ_ERR_INVALID_CONFIG, s, { e with enabled := false }) := by
  simp [gz_set_mode, hinit, h0, h1]

/-- C1 counterexample: with the engine enabled and role argument 2,
`gz_set_mode` returns `GZ_ERR_INVALID_CONFIG` but has disabled the engine,
so the engine is not left in its prior enabled state as the claim says. -/
theorem gz_set_mode_unknown_role_cex :
    (gz_set_mode 2 true true sDevice eEnabled).1 = .GZ_ERR_INVALID_CONFIG ∧
    eEnabled.enabled = true ∧
    (gz_set_mode 2 true true sDevice eEnabled).2.2.enabled = false := by
  decide

/-- Witness for C2 at concrete inputs: a rejected enqueue gives
`GZ_ERR_BUSY`; a quiet schedule exhausts the budget with
`GZ_ERR_SEND_FAILED`; a success event at iteration 5 gives `GZ_OK`; a
failed event at iteration 5 gives `GZ_ERR_SEND_FAILED`. -/
theorem gz_send_device_polling_witness :
    sDevice.initialized = true ∧ sDevice.mode = GZ_MODE_DEVICE ∧
    gz_send (some [1, 2]) 2 false schedNone sDevice eEnabled =
      (.GZ_ERR_BUSY,
        { sDevice with tx_success := false, tx_failed := false }, eEnabled) ∧
    (gz_send (some [1, 2]) 2 true schedNone sDevice eEnabled).1 =
      .GZ_ERR_SEND_FAILED ∧
    (gz_send (some [1, 2]) 2 true schedSucc5 sDevice eEnabled).1 = .GZ_OK ∧
    (gz_send (some [1, 2]) 2 true schedFail5 sDevice eEnabled).1 =
      .GZ_ERR_SEND_FAILED := by
  refine ⟨rfl, rfl, ?_, ?_, ?_, ?_⟩
  · exact (gz_send_device_polling sDevice eEnabled [1, 2] 2 schedNone rfl rfl
      (by decide) (by decide)).1
  · exact (gz_send_device_polling sDevice eEnabled [1, 2] 2 schedNone rfl rfl
      (by decide) (by decide)).2.1 (fun i _ => rfl)
  · refine (gz_send_device_polling sDevice eEnabled [1, 2] 2 schedSucc5 rfl rfl
      (by decide) (by decide)).2.2.1 5 (by decide) rfl ?_
    intro i hi
    have hne : ¬ i = 5 := by omega
    simp [schedSucc5, hne]
  · refine (gz_send_device_polling sDevice eEnabled [1, 2] 2 schedFail5 rfl rfl
      (by decide) (by decide)).2.2.2 5 (by decide) rfl ?_
    intro i hi
    have hne : ¬ i = 5 := by omega
    simp [schedFail5, hne]

/-- Witness for C6 at concrete inputs realizing each precondition failure. -/
theorem gz_send_precondition_order_witness :
    gz_send (some [1]) 1 true schedNone initialLinkState eEnabled =
      (.GZ_ERR_NOT_INITIALIZED, initialLinkState, eEnabled) ∧
    gz_send none 1 true schedNone sDevice eEnabled =
      (.GZ_ERR_INVALID_CONFIG, sDevice, eEnabled) ∧
    gz_send (some [1]) 0 true schedNone sDevice eEnabled =
      (.GZ_ERR_FRAME_TOO_LARGE, sDevice, eEnabled) ∧
    gz_send (some [1]) 33 true schedNone sDevice eEnabled =
      (.GZ_ERR_FRAME_TOO_LARGE, sDevice, eEnabled) ∧
    gz_send (some [1]) 1 true schedNone sHost4 eEnabled =
      (.GZ_ERR_INVALID_CONFIG, sHost4, eEnabled) := by
  refine ⟨?_, ?_, ?_, ?_, ?_⟩
  · exact (gz_send_precondition_order initialLinkState eEnabled (some [1]) 1
      true schedNone).1 rfl
  · exact (gz_send_precondition_order sDevice eEnabled none 1 true
      schedNone).2.1 rfl rfl
  · exact (gz_send_precondition_order sDevice eEnabled (some [1]) 0 true
      schedNone).2.2.1 [1] rfl rfl (Or.inl rfl)
  · exact (gz_send_precondition_order sDevice eEnabled (some [1]) 33 true
      schedNone).2.2.1 [1] rfl rfl (Or.inr (by decide))
  · exact (gz_send_precondition_order sHost4 eEnabled (some [1]) 1 true
      schedNone).2.2.2 [1] rfl rfl (by decide) (by decide) (by decide)

/-- Witness for C4: a config with channel 200 violates a bound and `gz_init`
rejects it leaving both states untouched. -/
theorem gz_init_invalid_config_witness :
    violatesBound (some cfgBadChannel) ∧
    gz_init (some cfgBadChannel) true sHost4 eBusy =
      (.GZ_ERR_INVALID_CONFIG, sHost4, eBusy) := by
  have hv : violatesBound (some cfgBadChannel) := by
    simp [violatesBound, cfgBadChannel, cfgValid]
  exact ⟨hv, gz_init_invalid_config (some cfgBadChannel) true sHost4 eBusy hv⟩

/-- Witness for C7: a valid config with a failing engine bring-up resets the
link state of a previously initialized link and returns `GZ_ERR_HARDWARE`. -/
theorem gz_init_hardware_resets_witness :
    gz_init (some cfgValid) false sHost4 eBusy =
      (.GZ_ERR_HARDWARE,
        { sHost4 with initialized := false, rx_ready := false,
                      tx_success := false, tx_failed := false }, eBusy) :=
  (gz_init_hardware_resets cfgValid sHost4 eBusy (by decide) (by decide)
    (by decide) (by decide) (by decide)).1

/-- Witness for C10: the valid sample config with ack timeout 600 µs is
programmed with timeslot period max (600 / 500) 1 = 1. -/
theorem gz_init_timeslot_witness :
    (gz_init (some cfgValid) true initialLinkState eEnabled).1 = .GZ_OK ∧
    (gz_init (some cfgValid) true initialLinkState eEnabled).2.2.timeslotPeriod =
      max (cfgValid.ack_timeout_us / 500) 1 ∧
    (gz_init (some cfgValid) true initialLinkState eEnabled).2.2.timeslotPeriod = 1 := by
  have h := gz_init_timeslot cfgValid initialLinkState eEnabled (by decide)
    (by decide) (by decide) (by decide) (by decide)
  exact ⟨h.1, h.2.1, h.2.2.2.1 (by decide) (by decide)⟩

/-- Witness for C8 at concrete inputs: every operation except init refuses
an uninitialized link, and deinit always leaves `initialized` false. -/
theorem ops_require_initialized_witness :
    gz_set_mode 1 true true initialLinkState eEnabled =
      (.GZ_ERR_NOT_INITIALIZED, initialLinkState, eEnabled) ∧
    gz_send (some [7]) 1 true schedNone initialLinkState eEnabled =
      (.GZ_ERR_NOT_INITIALIZED, initialLinkState, eEnabled) ∧
    gz_recv false false 32 initialLinkState =
      (.GZ_ERR_NOT_INITIALIZED, initialLinkState, none) ∧
    gz_flush initialLinkState eEnabled =
      (.GZ_ERR_NOT_INITIALIZED, initialLinkState, eEnabled) ∧
    gz_is_ready initialLinkState eEnabled = false ∧
    gz_deinit initialLinkState eEnabled = (initialLinkState, eEnabled) ∧
    (gz_deinit sDevice eEnabled).1.initialized = false := by
  have h := (ops_require_initialized initialLinkState eEnabled 1 true true
    true (some [7]) 1 schedNone false false 32).1 rfl
  have h2 := (ops_require_initialized sDevice eEnabled 1 true true true
    (some [7]) 1 schedNone false false 32).2
  exact ⟨h.1, h.2.1, h.2.2.1, h.2.2.2.1, h.2.2.2.2.1, h.2.2.2.2.2, h2⟩

/-- Witness for C9 at concrete inputs: flushing a Host-role link empties
both queues and clears the flags; flushing a Device-role link leaves the
inbound queue alone. -/
theorem gz_flush_behavior_witness :
    (gz_flush sHost4 eBusy).1 = .GZ_OK ∧
    (gz_flush sHost4 eBusy).2.2.txFifo = [] ∧
    (gz_flush sHost4 eBusy).2.2.rxFifo = [] ∧
    (gz_flush sHost4 eBusy).2.1.rx_ready = false ∧
    (gz_flush sHost4 eBusy).2.1.initialized = sHost4.initialized ∧
    (gz_flush sHost4 eBusy).2.1.mode = sHost4.mode ∧
    (gz_flush sDevice eBusy).2.2.rxFifo = eBusy.rxFifo := by
  have h := gz_flush_behavior sHost4 eBusy rfl
  have hd := gz_flush_behavior sDevice eBusy rfl
  exact ⟨h.1, h.2.1, h.2.2.1 rfl, h.2.2.2.2.1, h.2.2.2.2.2.2.2.1,
    h.2.2.2.2.2.2.2.2, hd.2.2.2.1 (by decide)⟩

/-- Witness for C3 at concrete inputs: a 4-byte buffered packet with
`max_len = 2` gives `GZ_ERR_FRAME_TOO_LARGE` leaving the state untouched,
and a retry with `max_len = 32` returns the packet. -/
theorem gz_recv_too_large_preserves_witness :
    sHost4.rx_ready = true ∧ 2 < sHost4.rx_length ∧
    gz_recv false false 2 sHost4 = (.GZ_ERR_FRAME_TOO_LARGE, sHost4, none) ∧
    gz_recv false false 32 (gz_recv false false 2 sHost4).2.1 =
      (.GZ_OK, { sHost4 with rx_ready := false },
        some ([10, 20, 30, 40], 4)) := by
  have h := gz_recv_too_large_preserves sHost4 2 rfl rfl rfl (by decide)
  refine ⟨rfl, by decide, h.1, ?_⟩
  rw [h.2 32 (by decide)]
  decide

/-- Witness for C5 at concrete inputs: no buffered packet gives `GZ_OK` with
length 0; a buffered 4-byte packet with `max_len = 4` is returned exactly
and readiness is cleared, so the immediately following receive reports
length 0. -/
theorem gz_recv_success_behavior_witness :
    gz_recv false false 4 { sHost4 with rx_ready := false } =
      (.GZ_OK, { sHost4 with rx_ready := false }, some ([], 0)) ∧
    gz_recv false false 4 sHost4 =
      (.GZ_OK, { sHost4 with rx_ready := false },
        some ([10, 20, 30, 40], 4)) ∧
    gz_recv false false 4 (gz_recv false false 4 sHost4).2.1 =
      (.GZ_OK, { sHost4 with rx_ready := false }, some ([], 0)) := by
  have h0 := (gz_recv_success_behavior { sHost4 with rx_ready := false } 4
    rfl rfl).1 rfl
  have h := (gz_recv_success_behavior sHost4 4 rfl rfl).2 rfl (by decide)
  refine ⟨h0, ?_, h.2 4⟩
  rw [h.1]
  decide

/-- Witness for C1 (amended) at a concrete input: role value 7 on an
initialized link returns `GZ_ERR_INVALID_CONFIG`, keeps the link state, and
leaves the engine disabled. -/
theorem gz_set_mode_unknown_role_witness :
    gz_set_mode 7 false false sDevice eEnabled =
      (.GZ_ERR_INVALID_CONFIG, sDevice, { eEnabled with enabled := false }) :=
  gz_set_mode_unknown_role 7 false false sDevice eEnabled rfl (by decide)
    (by decide)
